import Mathlib

/-!
Verification development for azure_utils/machine_learning/datasets/stack_overflow_data.py.

Tables are embedded as lists of row structures.  The pandas row index of the
Questions/Duplicates/Answers frames is the Id column (the frames are read with
Id as the key), so index-based operations in the source are modelled on the
Id field; reset_index only moves the Id key back into a column and is a no-op
on this representation.  The external collaborators imported by the module
(clean_text, round_sample_strat, random_merge) and the downloaded raw tables
are parameters of the embedding, constrained only where a claim supplies a
precondition.  Diagnostic printing (show_output) has no effect on the data and
is not modelled.  Python assert statements are modelled by returning an Option:
none is an assertion failure.
-/

set_option linter.unusedVariables false

namespace StackOverflowData

/-- Row of the Questions table and of the Duplicates table
(columns Id, AnswerId, Text0, CreationDate, plus the computed Text column). -/
structure QRow where
  Id : Nat
  AnswerId : Nat
  Text0 : String
  CreationDate : String
  Text : String
deriving Repr, DecidableEq

/-- Row of the Answers table (columns Id, Text0, plus the computed Text column). -/
structure ARow where
  Id : Nat
  Text0 : String
  Text : String
deriving Repr, DecidableEq

/-- Row of a balanced-pairs table, projected to the eight columns kept by
split_duplicates: Id_x, AnswerId_x, Text_x, Id_y, Text_y, AnswerId_y, Label, n. -/
structure PRow where
  Id_x : Nat
  AnswerId_x : Nat
  Text_x : String
  Id_y : Nat
  Text_y : String
  AnswerId_y : Nat
  Label : Nat
  n : Nat
deriving Repr, DecidableEq

/-- The inputs of clean_data: the three raw tables, the two thresholds, and the
imported clean_text collaborator (ct). -/
structure CleanInput where
  ct : String → String
  questions : List QRow
  dupes : List QRow
  answers : List ARow
  min_text : Nat
  min_dupes : Nat

/-- Lowercase a string, character by character (str.lower()). -/
def lowerStr (s : String) : String :=
  ⟨s.data.map Char.toLower⟩

/-- Line 81: df.Text0.apply(clean_text).str.lower(). -/
def cleanTextLower (ct : String → String) (s : String) : String :=
  lowerStr (ct s)

/-- Lines 80-82: add the cleaned Text column to the Questions table;
line 82 keeps only rows with nonempty Text. -/
def questions1 (i : CleanInput) : List QRow :=
  (i.questions.map fun r => { r with Text := cleanTextLower i.ct r.Text0 }).filter
    fun r => decide (0 < r.Text.length)

/-- Lines 80-81 and 83: add the cleaned Text column to the Answers table and
keep only rows with nonempty Text. -/
def answers1 (i : CleanInput) : List ARow :=
  (i.answers.map fun r => { r with Text := cleanTextLower i.ct r.Text0 }).filter
    fun r => decide (0 < r.Text.length)

/-- Lines 80-81 and 84: add the cleaned Text column to the Duplicates table and
keep only rows with nonempty Text. -/
def dupes1 (i : CleanInput) : List QRow :=
  (i.dupes.map fun r => { r with Text := cleanTextLower i.ct r.Text0 }).filter
    fun r => decide (0 < r.Text.length)

/-- Line 89: dupes = dupes[~dupes.index.isin(questions.index)] (the index is Id). -/
def dupes2 (i : CleanInput) : List QRow :=
  (dupes1 i).filter fun r => !decide (r.Id ∈ (questions1 i).map QRow.Id)

/-- Keep, in order, the first row bearing each Id; seen is the accumulator of
Ids already kept.  This is df[~df.index.duplicated(keep=\x27first\x27)]. -/
def dedupFirst : List QRow → List Nat → List QRow
  | [], _ => []
  | r :: rs, seen =>
    if r.Id ∈ seen then dedupFirst rs seen
    else r :: dedupFirst rs (r.Id :: seen)

/-- Line 90: questions = questions[~questions.index.duplicated(keep=first)]. -/
def questions2 (i : CleanInput) : List QRow :=
  dedupFirst (questions1 i) []

/-- Line 91: dupes = dupes[~dupes.index.duplicated(keep=first)]. -/
def dupes3 (i : CleanInput) : List QRow :=
  dedupFirst (dupes2 i) []

/-- Line 93: questions = questions[questions.AnswerId.isin(answers.index)
& questions.AnswerId.isin(dupes.AnswerId)]. -/
def questions3 (i : CleanInput) : List QRow :=
  (questions2 i).filter fun r =>
    decide (r.AnswerId ∈ (answers1 i).map ARow.Id) &&
    decide (r.AnswerId ∈ (dupes3 i).map QRow.AnswerId)

/-- Line 94: answers = answers[answers.index.isin(questions.AnswerId)]. -/
def answers2 (i : CleanInput) : List ARow :=
  (answers1 i).filter fun r => decide (r.Id ∈ (questions3 i).map QRow.AnswerId)

/-- Line 95: dupes = dupes[dupes.AnswerId.isin(questions.AnswerId)]. -/
def dupes4 (i : CleanInput) : List QRow :=
  (dupes3 i).filter fun r => decide (r.AnswerId ∈ (questions3 i).map QRow.AnswerId)

/-- Lines 162-167: the four referential-integrity assertions of
verify_data_integrity, as one boolean (true means all four asserts pass). -/
def verify_data_integrity (answers : List ARow) (dupes questions : List QRow) : Bool :=
  (questions.all fun r => decide (r.AnswerId ∈ answers.map ARow.Id)) &&
  (answers.all fun r => decide (r.Id ∈ questions.map QRow.AnswerId)) &&
  (questions.all fun r => decide (r.AnswerId ∈ dupes.map QRow.AnswerId)) &&
  (dupes.all fun r => decide (r.AnswerId ∈ questions.map QRow.AnswerId))

/-- Line 113 (after the reset_index no-ops of lines 109-111): questions =
questions[questions.Text.str.len() >= min_text]. -/
def questions4 (i : CleanInput) : List QRow :=
  (questions3 i).filter fun r => decide (i.min_text ≤ r.Text.length)

/-- Line 114: dupes = dupes[dupes.Text.str.len() >= min_text]. -/
def dupes5 (i : CleanInput) : List QRow :=
  (dupes4 i).filter fun r => decide (i.min_text ≤ r.Text.length)

/-- Line 117: questions = questions[questions.AnswerId.isin(dupes.AnswerId)]. -/
def questions5 (i : CleanInput) : List QRow :=
  (questions4 i).filter fun r => decide (r.AnswerId ∈ (dupes5 i).map QRow.AnswerId)

/-- Line 118: dupes = dupes[dupes.AnswerId.isin(questions.AnswerId)]. -/
def dupes6 (i : CleanInput) : List QRow :=
  (dupes5 i).filter fun r => decide (r.AnswerId ∈ (questions5 i).map QRow.AnswerId)

/-- Line 120: dupes.groupby(AnswerId)[AnswerId].count() evaluated at one
AnswerId value: the number of Duplicate rows in that class. -/
def answerid_count (i : CleanInput) (a : Nat) : Nat :=
  (dupes6 i).countP fun r => decide (r.AnswerId = a)

/-- Line 121: answerid_count.index[answerid_count >= min_dupes], the distinct
AnswerId values of the table whose class size reaches min_dupes. -/
def answerid_min (i : CleanInput) : List Nat :=
  ((dupes6 i).map QRow.AnswerId).dedup.filter fun a =>
    decide (i.min_dupes ≤ answerid_count i a)

/-- Line 122: questions = questions[questions[label_column].isin(answerid_min)]. -/
def questions6 (i : CleanInput) : List QRow :=
  (questions5 i).filter fun r => decide (r.AnswerId ∈ answerid_min i)

/-- Line 123: dupes = dupes[dupes[label_column].isin(answerid_min)]. -/
def dupes7 (i : CleanInput) : List QRow :=
  (dupes6 i).filter fun r => decide (r.AnswerId ∈ answerid_min i)

/-- Lines 79-138: clean_data.  Composes the filtering chain above; the
verify_data_integrity call (line 96) and the two asserts of lines 125-126
gate the result (none models an assertion failure).  Returns
(dupes, label_column, questions) as the source does. -/
def clean_data (i : CleanInput) : Option (List QRow × String × List QRow) :=
  if verify_data_integrity (answers2 i) (dupes4 i) (questions3 i) &&
     ((questions6 i).all fun r => decide (r.AnswerId ∈ (dupes7 i).map QRow.AnswerId)) &&
     ((dupes7 i).all fun r => decide (r.AnswerId ∈ (questions6 i).map QRow.AnswerId))
  then some (dupes7 i, "AnswerId", questions6 i)
  else none

/-- Line 50: dupes_train = dupes[~dupes.Id.isin(dupes_test.Id)]. -/
def dupes_train (dupes dupes_test : List QRow) : List QRow :=
  dupes.filter fun d => !decide (d.Id ∈ dupes_test.map QRow.Id)

/-- Number of distinct values of a column: series.unique().shape[0]. -/
def uniqueCount (l : List Nat) : Nat :=
  l.dedup.length

/-- Lines 57 and 65: Label = (AnswerId_x == AnswerId_y).astype(int). -/
def setLabel (r : PRow) : PRow :=
  { r with Label := if r.AnswerId_x = r.AnswerId_y then 1 else 0 }

/-- The sort key of lines 61 and 69: by=[Id_x, Label], ascending=[True, False]. -/
def pairLe (a b : PRow) : Prop :=
  a.Id_x < b.Id_x ∨ (a.Id_x = b.Id_x ∧ b.Label ≤ a.Label)

instance : DecidableRel pairLe := fun a b => by
  unfold pairLe; infer_instance

instance : IsTotal PRow pairLe :=
  ⟨fun a b => by unfold pairLe; omega⟩

instance : IsTrans PRow pairLe :=
  ⟨fun a b c h1 h2 => by unfold pairLe at *; omega⟩

/-- Lines 61 and 69: sort_values(by=[Id_x, Label], ascending=[True, False]). -/
def sortPairs (l : List PRow) : List PRow :=
  List.insertionSort pairLe l

/-- Lines 57-61 and 65-69 applied to a random_merge result: label every row by
AnswerId match, project to the eight pair columns (the identity on PRow), and
sort by (Id_x ascending, Label descending). -/
def make_balanced_pairs (merged : List PRow) : List PRow :=
  sortPairs (merged.map setLabel)

/-- Lines 48-81: split_duplicates.  rss is the round_sample_strat collaborator
of line 49 (its frac and label-series arguments are absorbed into the
parameter); rm is the random_merge collaborator of lines 54 and 63, taking the
dupe subset, the questions, and N.  The assert of line 51 (every AnswerId class
of dupes is represented in dupes_test) gates the result.  Returns
(balanced_pairs_test, balanced_pairs_train, dupes_test) as the source does. -/
def split_duplicates (rss : List QRow → List QRow)
    (rm : List QRow → List QRow → Nat → List PRow)
    (dupes questions : List QRow) (matchN : Nat) :
    Option (List PRow × List PRow × List QRow) :=
  let dupes_test := rss dupes
  if uniqueCount (dupes_test.map QRow.AnswerId) = uniqueCount (dupes.map QRow.AnswerId) then
    some (make_balanced_pairs (rm dupes_test questions questions.length),
          make_balanced_pairs (rm (dupes_train dupes dupes_test) questions matchN),
          dupes_test)
  else none

/-- The four files of the output directory; some t means the file exists with
table t, none means it does not exist. -/
structure FS where
  questions_tsv : Option (List QRow)
  dupes_test_tsv : Option (List QRow)
  balanced_pairs_train_tsv : Option (List PRow)
  balanced_pairs_test_tsv : Option (List PRow)
deriving Repr, DecidableEq

/-- Lines 141-159: save_data writes the four tables to the four files. -/
def save_data (bpe bpt : List PRow) (dupes_test questions : List QRow) : FS :=
  { questions_tsv := some questions,
    dupes_test_tsv := some dupes_test,
    balanced_pairs_train_tsv := some bpt,
    balanced_pairs_test_tsv := some bpe }

/-- The inputs of create_stack_overflow_data: the filesystem of the output
directory, the clean_data inputs (the three raw tables standing for the
download_datasets result), the two collaborators of split_duplicates, and the
match parameter. -/
structure PipelineInput where
  fs : FS
  ci : CleanInput
  rss : List QRow → List QRow
  rm : List QRow → List QRow → Nat → List PRow
  matchN : Nat

/-- Lines 15-45: create_stack_overflow_data.  If both questions.tsv and
dupes_test.tsv exist (line 30), return the two loaded tables with the
filesystem untouched; otherwise run clean_data, split_duplicates and
save_data, and return (questions, dupes_test).  The result pairs the returned
tables with the filesystem after the call. -/
def create_stack_overflow_data (p : PipelineInput) :
    Option ((List QRow × List QRow) × FS) :=
  match p.fs.dupes_test_tsv, p.fs.questions_tsv with
  | some ds, some qs => some ((qs, ds), p.fs)
  | _, _ =>
    (clean_data p.ci).bind fun r =>
      (split_duplicates p.rss p.rm r.1 r.2.2 p.matchN).bind fun s =>
        some ((r.2.2, s.2.2), save_data s.1 s.2.1 s.2.2 r.2.2)

/-! Helper lemmas about dedupFirst. -/

/-- dedupFirst returns a sublist of its input. -/
theorem dedupFirst_sublist (l : List QRow) (seen : List Nat) :
    List.Sublist (dedupFirst l seen) l := by
  induction l generalizing seen with
  | nil => exact List.Sublist.refl []
  | cons x rs ih =>
    by_cases hx : x.Id ∈ seen
    · rw [dedupFirst, if_pos hx]
      exact (ih seen).cons x
    · rw [dedupFirst, if_neg hx]
      exact (ih (x.Id :: seen)).cons₂ x

/-- A row kept by dedupFirst has an Id outside the accumulator, and is the
first row of the input carrying its Id. -/
theorem mem_dedupFirst {l : List QRow} {seen : List Nat} {r : QRow}
    (h : r ∈ dedupFirst l seen) :
    r.Id ∉ seen ∧ l.find? (fun x => decide (x.Id = r.Id)) = some r := by
  induction l generalizing seen with
  | nil => simp [dedupFirst] at h
  | cons x rs ih =>
    by_cases hx : x.Id ∈ seen
    · rw [dedupFirst, if_pos hx] at h
      obtain ⟨hns, hf⟩ := ih h
      have hne : ¬ (decide (x.Id = r.Id) = true) := by
        simp only [decide_eq_true_eq]
        intro hxe
        exact hns (hxe ▸ hx)
      exact ⟨hns, (List.find?_cons_of_neg rs hne).trans hf⟩
    · rw [dedupFirst, if_neg hx] at h
      rcases List.mem_cons.mp h with hrx | hmem
      · subst hrx
        exact ⟨hx, List.find?_cons_of_pos rs (by simp)⟩
      · obtain ⟨hns, hf⟩ := ih hmem
        have hrid : r.Id ≠ x.Id ∧ r.Id ∉ seen := by
          constructor
          · intro he; exact hns (by simp [he])
          · intro he; exact hns (by simp [he])
        have hne : ¬ (decide (x.Id = r.Id) = true) := by
          simp only [decide_eq_true_eq]
          intro hxe; exact hrid.1 hxe.symm
        exact ⟨hrid.2, (List.find?_cons_of_neg rs hne).trans hf⟩

/-- The Ids of the rows kept by dedupFirst are pairwise distinct. -/
theorem nodup_dedupFirst (l : List QRow) (seen : List Nat) :
    ((dedupFirst l seen).map QRow.Id).Nodup := by
  induction l generalizing seen with
  | nil => simp [dedupFirst]
  | cons x rs ih =>
    by_cases hx : x.Id ∈ seen
    · rw [dedupFirst, if_pos hx]
      exact ih seen
    · rw [dedupFirst, if_neg hx]
      simp only [List.map_cons, List.nodup_cons]
      refine ⟨?_, ih (x.Id :: seen)⟩
      intro hmem
      obtain ⟨y, hy, hyid⟩ := List.mem_map.mp hmem
      exact (mem_dedupFirst hy).1 (by simp [hyid])

/-! Helper lemmas about the filtering chain of clean_data. -/

/-- The final Questions table is a sublist of the de-duplicated one. -/
theorem questions6_sublist_questions2 (i : CleanInput) :
    List.Sublist (questions6 i) (questions2 i) := by
  unfold questions6 questions5 questions4 questions3
  exact ((List.filter_sublist _).trans ((List.filter_sublist _).trans
    ((List.filter_sublist _).trans (List.filter_sublist _))))

/-- The final Duplicates table is a sublist of the de-duplicated one. -/
theorem dupes7_sublist_dupes3 (i : CleanInput) :
    List.Sublist (dupes7 i) (dupes3 i) := by
  unfold dupes7 dupes6 dupes5 dupes4
  exact ((List.filter_sublist _).trans ((List.filter_sublist _).trans
    ((List.filter_sublist _).trans (List.filter_sublist _))))

/-- Unfolding of clean_data on a successful run: the returned tables are the
final filtered tables, and the label column is AnswerId. -/
theorem clean_data_eq {i : CleanInput} {d : List QRow} {lbl : String} {q : List QRow}
    (h : clean_data i = some (d, lbl, q)) :
    d = dupes7 i ∧ lbl = "AnswerId" ∧ q = questions6 i := by
  unfold clean_data at h
  split at h
  · simp only [Option.some.injEq, Prod.mk.injEq] at h
    exact ⟨h.1.symm, h.2.1.symm, h.2.2.symm⟩
  · exact absurd h (by simp)

/-- Every value of answerid_min is the AnswerId of some row of the table the
counts were taken over. -/
theorem answerid_min_mem_dupes6 {i : CleanInput} {a : Nat} (h : a ∈ answerid_min i) :
    a ∈ (dupes6 i).map QRow.AnswerId := by
  simp only [answerid_min, List.mem_filter] at h
  exact List.mem_dedup.mp h.1

/-- Bidirectional closure of the final tables: the questions and the dupes
carry exactly the same AnswerId values. -/
theorem questions6_dupes7_answer_sets (i : CleanInput) (a : Nat) :
    a ∈ (questions6 i).map QRow.AnswerId ↔ a ∈ (dupes7 i).map QRow.AnswerId := by
  constructor
  · intro h
    obtain ⟨q, hq, rfl⟩ := List.mem_map.mp h
    simp only [questions6, List.mem_filter, decide_eq_true_eq] at hq
    obtain ⟨hq5, hmin⟩ := hq
    obtain ⟨d, hd6, hdeq⟩ := List.mem_map.mp (answerid_min_mem_dupes6 hmin)
    refine List.mem_map.mpr ⟨d, ?_, hdeq⟩
    simp only [dupes7, List.mem_filter, decide_eq_true_eq]
    refine ⟨hd6, ?_⟩
    rw [hdeq]
    exact hmin
  · intro h
    obtain ⟨d, hd, rfl⟩ := List.mem_map.mp h
    simp only [dupes7, List.mem_filter, decide_eq_true_eq] at hd
    obtain ⟨hd6, hmin⟩ := hd
    simp only [dupes6, List.mem_filter, decide_eq_true_eq] at hd6
    obtain ⟨q, hq5, hqeq⟩ := List.mem_map.mp hd6.2
    refine List.mem_map.mpr ⟨q, ?_, hqeq⟩
    simp only [questions6, List.mem_filter, decide_eq_true_eq]
    refine ⟨hq5, ?_⟩
    rw [hqeq]
    exact hmin

/-- C10: the four referential-integrity assertions of verify_data_integrity are
guaranteed to pass when it is called from clean_data (line 96), because the
filters of lines 93-95 establish all four inclusions on the tables passed to
it; the assertion-failure branch is unreachable, for every input. -/
theorem verify_data_integrity_unreachable_failure (i : CleanInput) :
    verify_data_integrity (answers2 i) (dupes4 i) (questions3 i) = true := by
  unfold verify_data_integrity
  simp only [Bool.and_eq_true, List.all_eq_true, decide_eq_true_eq]
  refine ⟨⟨⟨?_, ?_⟩, ?_⟩, ?_⟩
  · intro r hr
    have hr3 := hr
    simp only [questions3, List.mem_filter, Bool.and_eq_true, decide_eq_true_eq] at hr3
    obtain ⟨hq2, ha, hd⟩ := hr3
    obtain ⟨a, haa, haid⟩ := List.mem_map.mp ha
    refine List.mem_map.mpr ⟨a, ?_, haid⟩
    simp only [answers2, List.mem_filter, decide_eq_true_eq]
    refine ⟨haa, ?_⟩
    rw [haid]
    exact List.mem_map.mpr ⟨r, hr, rfl⟩
  · intro r hr
    simp only [answers2, List.mem_filter, decide_eq_true_eq] at hr
    exact hr.2
  · intro r hr
    have hr3 := hr
    simp only [questions3, List.mem_filter, Bool.and_eq_true, decide_eq_true_eq] at hr3
    obtain ⟨hq2, ha, hd⟩ := hr3
    obtain ⟨d, hdd, hdid⟩ := List.mem_map.mp hd
    refine List.mem_map.mpr ⟨d, ?_, hdid⟩
    simp only [dupes4, List.mem_filter, decide_eq_true_eq]
    refine ⟨hdd, ?_⟩
    rw [hdid]
    exact List.mem_map.mpr ⟨r, hr, rfl⟩
  · intro r hr
    simp only [dupes4, List.mem_filter, decide_eq_true_eq] at hr
    exact hr.2

/-- C3: after clean_data completes, the set of AnswerId values of the returned
Questions table equals the set of AnswerId values of the returned Duplicates
table (each is a subset of the other). -/
theorem clean_data_answer_sets_eq (i : CleanInput) (d : List QRow) (lbl : String)
    (q : List QRow) (h : clean_data i = some (d, lbl, q)) :
    ∀ a : Nat, a ∈ q.map QRow.AnswerId ↔ a ∈ d.map QRow.AnswerId := by
  obtain ⟨hd, -, hq⟩ := clean_data_eq h
  subst hd hq
  exact fun a => questions6_dupes7_answer_sets i a

/-- C1: every row retained in the cleaned Questions table and in the cleaned
Duplicates table returned by clean_data has cleaned Text of length at least
min_text. -/
theorem clean_data_min_text (i : CleanInput) (d : List QRow) (lbl : String)
    (q : List QRow) (h : clean_data i = some (d, lbl, q)) :
    (∀ r ∈ q, i.min_text ≤ r.Text.length) ∧ (∀ r ∈ d, i.min_text ≤ r.Text.length) := by
  obtain ⟨hd, -, hq⟩ := clean_data_eq h
  subst hd hq
  constructor
  · intro r hr
    simp only [questions6, questions5, questions4, List.mem_filter,
      decide_eq_true_eq] at hr
    exact hr.1.1.2
  · intro r hr
    simp only [dupes7, dupes6, dupes5, List.mem_filter, decide_eq_true_eq] at hr
    exact hr.1.1.2

/-- C2: every AnswerId value occurring in the cleaned Duplicates table returned
by clean_data occurs in at least min_dupes rows of that table. -/
theorem clean_data_min_dupes (i : CleanInput) (d : List QRow) (lbl : String)
    (q : List QRow) (h : clean_data i = some (d, lbl, q)) (a : Nat)
    (ha : a ∈ d.map QRow.AnswerId) :
    i.min_dupes ≤ d.countP fun r => decide (r.AnswerId = a) := by
  obtain ⟨hd, -, -⟩ := clean_data_eq h
  subst hd
  obtain ⟨r, hr, rfl⟩ := List.mem_map.mp ha
  simp only [dupes7, List.mem_filter, decide_eq_true_eq] at hr
  obtain ⟨hr6, hrmin⟩ := hr
  have hcount : i.min_dupes ≤ answerid_count i r.AnswerId := by
    simp only [answerid_min, List.mem_filter, decide_eq_true_eq] at hrmin
    exact hrmin.2
  have hsame :
      ((dupes7 i).countP fun x => decide (x.AnswerId = r.AnswerId)) =
        answerid_count i r.AnswerId := by
    unfold dupes7 answerid_count
    rw [List.countP_filter]
    refine List.countP_congr ?_
    intro x hx
    simp only [Bool.and_eq_true, decide_eq_true_eq]
    constructor
    · intro hpq; exact hpq.1
    · intro hp
      exact ⟨hp, hp ▸ hrmin⟩
  rw [hsame]
  exact hcount

/-- C9 (amended): after cleaning, the Questions table and the Duplicates table
contain no two rows with the same Id, the retained row being the first one
carrying its Id among the rows surviving the empty-text filter; the Answers
table is not de-duplicated by clean_data and may keep repeated Ids. -/
theorem clean_data_nodup_ids (i : CleanInput) (d : List QRow) (lbl : String)
    (q : List QRow) (h : clean_data i = some (d, lbl, q)) :
    (q.map QRow.Id).Nodup ∧ (d.map QRow.Id).Nodup ∧
    (∀ r ∈ q, (questions1 i).find? (fun x => decide (x.Id = r.Id)) = some r) ∧
    (∀ r ∈ d, (dupes2 i).find? (fun x => decide (x.Id = r.Id)) = some r) := by
  obtain ⟨hd, -, hq⟩ := clean_data_eq h
  subst hd hq
  refine ⟨?_, ?_, ?_, ?_⟩
  · exact (nodup_dedupFirst (questions1 i) []).sublist
      ((questions6_sublist_questions2 i).map QRow.Id)
  · exact (nodup_dedupFirst (dupes2 i) []).sublist
      ((dupes7_sublist_dupes3 i).map QRow.Id)
  · intro r hr
    exact (mem_dedupFirst ((questions6_sublist_questions2 i).mem hr)).2
  · intro r hr
    exact (mem_dedupFirst ((dupes7_sublist_dupes3 i).mem hr)).2

/-- A concrete clean_data input used by witnesses: one question, one dupe of
it, one answer, thresholds one and one, with the identity as clean_text. -/
def sampleClean : CleanInput :=
  ⟨id, [⟨1, 100, "qq", "", ""⟩], [⟨2, 100, "dd", "", ""⟩], [⟨100, "aa", ""⟩], 1, 1⟩

/-- Witness for C1 at the concrete input sampleClean. -/
theorem clean_data_min_text_witness :
    1 ≤ (QRow.mk 1 100 "qq" "" "qq").Text.length ∧
    1 ≤ (QRow.mk 2 100 "dd" "" "dd").Text.length := by
  have h := clean_data_min_text sampleClean [⟨2, 100, "dd", "", "dd"⟩] "AnswerId"
    [⟨1, 100, "qq", "", "qq"⟩] (by decide)
  exact ⟨h.1 _ (by decide), h.2 _ (by decide)⟩

/-- Witness for C2 at the concrete input sampleClean. -/
theorem clean_data_min_dupes_witness :
    1 ≤ List.countP (fun r => decide (r.AnswerId = 100)) [QRow.mk 2 100 "dd" "" "dd"] :=
  clean_data_min_dupes sampleClean [⟨2, 100, "dd", "", "dd"⟩] "AnswerId"
    [⟨1, 100, "qq", "", "qq"⟩] (by decide) 100 (by decide)

/-- Witness for C3 at the concrete input sampleClean. -/
theorem clean_data_answer_sets_eq_witness :
    ((100 : Nat) ∈ List.map QRow.AnswerId [QRow.mk 1 100 "qq" "" "qq"] ↔
      (100 : Nat) ∈ List.map QRow.AnswerId [QRow.mk 2 100 "dd" "" "dd"]) :=
  clean_data_answer_sets_eq sampleClean [⟨2, 100, "dd", "", "dd"⟩] "AnswerId"
    [⟨1, 100, "qq", "", "qq"⟩] (by decide) 100

/-- Witness for C9 (amended) at the concrete input sampleClean. -/
theorem clean_data_nodup_ids_witness :
    (List.map QRow.Id [QRow.mk 1 100 "qq" "" "qq"]).Nodup ∧
    (List.map QRow.Id [QRow.mk 2 100 "dd" "" "dd"]).Nodup ∧
    (questions1 sampleClean).find?
      (fun x => decide (x.Id = (QRow.mk 1 100 "qq" "" "qq").Id)) =
      some (QRow.mk 1 100 "qq" "" "qq") ∧
    (dupes2 sampleClean).find?
      (fun x => decide (x.Id = (QRow.mk 2 100 "dd" "" "dd").Id)) =
      some (QRow.mk 2 100 "dd" "" "dd") := by
  have h := clean_data_nodup_ids sampleClean [⟨2, 100, "dd", "", "dd"⟩] "AnswerId"
    [⟨1, 100, "qq", "", "qq"⟩] (by decide)
  exact ⟨h.1, h.2.1, h.2.2.1 _ (by decide), h.2.2.2 _ (by decide)⟩

/-- A concrete clean_data input whose raw Answers table repeats Id 100. -/
def dupAnswersClean : CleanInput :=
  ⟨id, [⟨1, 100, "qq", "", ""⟩], [⟨2, 100, "dd", "", ""⟩],
   [⟨100, "aa", ""⟩, ⟨100, "bb", ""⟩], 1, 1⟩

/-- C9 counterexample: clean_data completes on dupAnswersClean, yet the cleaned
Answers table keeps both rows with Id 100, so the Ids within the cleaned
Answers table are not all distinct. -/
theorem cleaned_answers_dup_ids_counterexample :
    clean_data dupAnswersClean =
      some ([⟨2, 100, "dd", "", "dd"⟩], "AnswerId", [⟨1, 100, "qq", "", "qq"⟩]) ∧
    answers2 dupAnswersClean = [⟨100, "aa", "aa"⟩, ⟨100, "bb", "bb"⟩] ∧
    ¬ ((answers2 dupAnswersClean).map ARow.Id).Nodup :=
  ⟨by decide, by decide, by decide⟩

/-! Helper lemmas about split_duplicates. -/

/-- Unfolding of split_duplicates on a successful run: the test set is the
sampler result, the two pairing tables are built from the collaborator
results, and the class-coverage assertion holds. -/
theorem split_duplicates_eq {rss : List QRow → List QRow}
    {rm : List QRow → List QRow → Nat → List PRow}
    {dupes questions : List QRow} {matchN : Nat}
    {bpe bpt : List PRow} {dt : List QRow}
    (h : split_duplicates rss rm dupes questions matchN = some (bpe, bpt, dt)) :
    dt = rss dupes ∧
    bpe = make_balanced_pairs (rm (rss dupes) questions questions.length) ∧
    bpt = make_balanced_pairs (rm (dupes_train dupes (rss dupes)) questions matchN) ∧
    uniqueCount ((rss dupes).map QRow.AnswerId) =
      uniqueCount (dupes.map QRow.AnswerId) := by
  simp only [split_duplicates] at h
  split at h
  · simp only [Option.some.injEq, Prod.mk.injEq] at h
    refine ⟨h.2.2.symm, h.1.symm, h.2.1.symm, by assumption⟩
  · exact absurd h (by simp)

/-- Every row of a balanced-pairs table is a labelled collaborator row. -/
theorem mem_make_balanced_pairs {merged : List PRow} {r : PRow}
    (h : r ∈ make_balanced_pairs merged) :
    ∃ m ∈ merged, r = setLabel m := by
  unfold make_balanced_pairs sortPairs at h
  have hm := (List.perm_insertionSort pairLe (merged.map setLabel)).mem_iff.mp h
  obtain ⟨m, hmm, hme⟩ := List.mem_map.mp hm
  exact ⟨m, hmm, hme.symm⟩

/-- A labelled row has Label one exactly when its two AnswerIds agree. -/
theorem setLabel_label_iff (m : PRow) :
    ((setLabel m).Label = 1 ↔ (setLabel m).AnswerId_x = (setLabel m).AnswerId_y) := by
  cases m with
  | mk ix ax tx iy ty ay lab n =>
    by_cases h : ax = ay <;> simp [setLabel, h]

/-- C4: in both pairing tables produced by split_duplicates, a row has
Label = 1 exactly when its AnswerId_x equals its AnswerId_y, for every result
returned by the pairing collaborator. -/
theorem split_duplicates_label_iff (rss : List QRow → List QRow)
    (rm : List QRow → List QRow → Nat → List PRow)
    (dupes questions : List QRow) (matchN : Nat)
    (bpe bpt : List PRow) (dt : List QRow)
    (h : split_duplicates rss rm dupes questions matchN = some (bpe, bpt, dt)) :
    (∀ r ∈ bpt, (r.Label = 1 ↔ r.AnswerId_x = r.AnswerId_y)) ∧
    (∀ r ∈ bpe, (r.Label = 1 ↔ r.AnswerId_x = r.AnswerId_y)) := by
  obtain ⟨-, hbpe, hbpt, -⟩ := split_duplicates_eq h
  subst hbpe hbpt
  constructor <;>
  · intro r hr
    obtain ⟨m, -, rfl⟩ := mem_make_balanced_pairs hr
    exact setLabel_label_iff m

/-- C5: in both balanced-pairs tables returned by split_duplicates, rows are
ordered by Id_x ascending, and within a group of equal Id_x every row with
Label one precedes every row with Label zero (later rows never have a larger
Label than earlier rows of the same Id_x). -/
theorem split_duplicates_sort_order (rss : List QRow → List QRow)
    (rm : List QRow → List QRow → Nat → List PRow)
    (dupes questions : List QRow) (matchN : Nat)
    (bpe bpt : List PRow) (dt : List QRow)
    (h : split_duplicates rss rm dupes questions matchN = some (bpe, bpt, dt)) :
    bpt.Pairwise (fun a b => a.Id_x ≤ b.Id_x ∧ (a.Id_x = b.Id_x → b.Label ≤ a.Label)) ∧
    bpe.Pairwise (fun a b => a.Id_x ≤ b.Id_x ∧ (a.Id_x = b.Id_x → b.Label ≤ a.Label)) := by
  obtain ⟨-, hbpe, hbpt, -⟩ := split_duplicates_eq h
  subst hbpe hbpt
  constructor <;>
  · unfold make_balanced_pairs sortPairs
    refine List.Pairwise.imp ?_ (List.sorted_insertionSort pairLe _)
    intro a b hab
    unfold pairLe at hab
    omega

/-- C6: the train Duplicate set is disjoint from the test Duplicate set by Id
and, when the sampler returned a subset of the cleaned Duplicate table, the
two Id sets together cover exactly the full table. -/
theorem dupes_train_test_partition (dupes dt : List QRow) :
    (∀ x ∈ (dupes_train dupes dt).map QRow.Id, x ∉ dt.map QRow.Id) ∧
    ((∀ d ∈ dt, d ∈ dupes) →
      ∀ x : Nat, x ∈ dupes.map QRow.Id ↔
        x ∈ (dupes_train dupes dt).map QRow.Id ∨ x ∈ dt.map QRow.Id) := by
  constructor
  · intro x hx hx2
    obtain ⟨d, hd, rfl⟩ := List.mem_map.mp hx
    simp only [dupes_train, List.mem_filter, Bool.not_eq_true',
      decide_eq_false_iff_not] at hd
    exact hd.2 hx2
  · intro hsub x
    constructor
    · intro hx
      obtain ⟨d, hd, rfl⟩ := List.mem_map.mp hx
      by_cases hmem : d.Id ∈ dt.map QRow.Id
      · exact Or.inr hmem
      · refine Or.inl (List.mem_map.mpr ⟨d, ?_, rfl⟩)
        simp only [dupes_train, List.mem_filter, Bool.not_eq_true',
          decide_eq_false_iff_not]
        exact ⟨hd, hmem⟩
    · intro hx
      rcases hx with hx | hx
      · obtain ⟨d, hd, rfl⟩ := List.mem_map.mp hx
        simp only [dupes_train, List.mem_filter] at hd
        exact List.mem_map.mpr ⟨d, hd.1, rfl⟩
      · obtain ⟨d, hd, rfl⟩ := List.mem_map.mp hx
        exact List.mem_map.mpr ⟨d, hsub d hd, rfl⟩

/-- C7: when split_duplicates completes (its class-coverage assertion passed)
and the sampler returned a subset of its input table, every distinct AnswerId
value of the full cleaned Duplicate table also appears in the test subset. -/
theorem split_duplicates_class_coverage (rss : List QRow → List QRow)
    (rm : List QRow → List QRow → Nat → List PRow)
    (dupes questions : List QRow) (matchN : Nat)
    (bpe bpt : List PRow) (dt : List QRow)
    (h : split_duplicates rss rm dupes questions matchN = some (bpe, bpt, dt))
    (hsub : ∀ d ∈ dt, d ∈ dupes) :
    ∀ a ∈ dupes.map QRow.AnswerId, a ∈ dt.map QRow.AnswerId := by
  obtain ⟨hdt, -, -, hcount⟩ := split_duplicates_eq h
  subst hdt
  have hsubset : (((rss dupes).map QRow.AnswerId).toFinset : Finset Nat) ⊆
      (dupes.map QRow.AnswerId).toFinset := by
    intro a ha
    rw [List.mem_toFinset] at ha ⊢
    obtain ⟨d, hd, rfl⟩ := List.mem_map.mp ha
    exact List.mem_map.mpr ⟨d, hsub d hd, rfl⟩
  have hcard : ((dupes.map QRow.AnswerId).toFinset).card ≤
      (((rss dupes).map QRow.AnswerId).toFinset).card := by
    rw [List.card_toFinset, List.card_toFinset]
    unfold uniqueCount at hcount
    omega
  have heq := Finset.eq_of_subset_of_card_le hsubset hcard
  intro a ha
  have hf : a ∈ (dupes.map QRow.AnswerId).toFinset := List.mem_toFinset.mpr ha
  rw [← heq] at hf
  exact List.mem_toFinset.mp hf

/-- Witness for C4 at a concrete split_duplicates run whose collaborator
returns one matching and one non-matching pair. -/
theorem split_duplicates_label_iff_witness :
    ((PRow.mk 1 100 "a" 7 "b" 100 1 0).Label = 1 ↔
      (PRow.mk 1 100 "a" 7 "b" 100 1 0).AnswerId_x =
        (PRow.mk 1 100 "a" 7 "b" 100 1 0).AnswerId_y) := by
  have h := split_duplicates_label_iff (fun l => l)
    (fun _ _ _ => [⟨1, 100, "a", 7, "b", 100, 9, 0⟩, ⟨1, 100, "a", 8, "c", 200, 9, 1⟩])
    [⟨2, 100, "dd", "", "dd"⟩] [⟨1, 100, "qq", "", "qq"⟩] 20
    [⟨1, 100, "a", 7, "b", 100, 1, 0⟩, ⟨1, 100, "a", 8, "c", 200, 0, 1⟩]
    [⟨1, 100, "a", 7, "b", 100, 1, 0⟩, ⟨1, 100, "a", 8, "c", 200, 0, 1⟩]
    [⟨2, 100, "dd", "", "dd"⟩] (by decide)
  exact h.1 _ (by decide)

/-- Witness for C5 at the same concrete run: the Label-zero row sorted after
the Label-one row of the same Id_x indeed has the smaller Label. -/
theorem split_duplicates_sort_order_witness :
    (PRow.mk 1 100 "a" 8 "c" 200 0 1).Label ≤ (PRow.mk 1 100 "a" 7 "b" 100 1 0).Label := by
  have h := split_duplicates_sort_order (fun l => l)
    (fun _ _ _ => [⟨1, 100, "a", 7, "b", 100, 9, 0⟩, ⟨1, 100, "a", 8, "c", 200, 9, 1⟩])
    [⟨2, 100, "dd", "", "dd"⟩] [⟨1, 100, "qq", "", "qq"⟩] 20
    [⟨1, 100, "a", 7, "b", 100, 1, 0⟩, ⟨1, 100, "a", 8, "c", 200, 0, 1⟩]
    [⟨1, 100, "a", 7, "b", 100, 1, 0⟩, ⟨1, 100, "a", 8, "c", 200, 0, 1⟩]
    [⟨2, 100, "dd", "", "dd"⟩] (by decide)
  exact ((List.pairwise_cons.mp h.1).1 _ (by decide)).2 rfl

/-- Witness for C6 at a concrete two-row Duplicate table split into one train
row (Id 2) and one test row (Id 3). -/
theorem dupes_train_test_partition_witness :
    ((2 : Nat) ∉ List.map QRow.Id [QRow.mk 3 100 "ee" "" "ee"]) ∧
    ((2 : Nat) ∈ List.map QRow.Id [QRow.mk 2 100 "dd" "" "dd", QRow.mk 3 100 "ee" "" "ee"] ↔
      (2 : Nat) ∈ List.map QRow.Id
        (dupes_train [QRow.mk 2 100 "dd" "" "dd", QRow.mk 3 100 "ee" "" "ee"]
          [QRow.mk 3 100 "ee" "" "ee"]) ∨
      (2 : Nat) ∈ List.map QRow.Id [QRow.mk 3 100 "ee" "" "ee"]) := by
  have h := dupes_train_test_partition
    [⟨2, 100, "dd", "", "dd"⟩, ⟨3, 100, "ee", "", "ee"⟩] [⟨3, 100, "ee", "", "ee"⟩]
  exact ⟨h.1 2 (by decide), h.2 (by decide) 2⟩

/-- Witness for C7 at a concrete run whose sampler returns the whole table. -/
theorem split_duplicates_class_coverage_witness :
    (100 : Nat) ∈ List.map QRow.AnswerId [QRow.mk 2 100 "dd" "" "dd"] := by
  have h := split_duplicates_class_coverage (fun l => l) (fun _ _ _ => [])
    [⟨2, 100, "dd", "", "dd"⟩] [] 0 [] [] [⟨2, 100, "dd", "", "dd"⟩]
    (by decide) (by decide)
  exact h 100 (by decide)

/-- C8: if both questions.tsv and dupes_test.tsv exist at entry,
create_stack_overflow_data returns exactly the two tables loaded from those
files and leaves the filesystem untouched (no fetching, cleaning, pairing,
splitting or saving happens); on a cache miss it returns the
(questions, dupes_test) pair produced by clean_data and split_duplicates and
writes the four files. -/
theorem create_stack_overflow_data_cache (p p2 : PipelineInput)
    (qs ds : List QRow) (d q : List QRow) (lbl : String)
    (bpe bpt : List PRow) (dt : List QRow)
    (hq : p.fs.questions_tsv = some qs) (hd : p.fs.dupes_test_tsv = some ds)
    (hmiss : p2.fs.questions_tsv = none ∨ p2.fs.dupes_test_tsv = none)
    (hclean : clean_data p2.ci = some (d, lbl, q))
    (hsplit : split_duplicates p2.rss p2.rm d q p2.matchN = some (bpe, bpt, dt)) :
    create_stack_overflow_data p = some ((qs, ds), p.fs) ∧
    create_stack_overflow_data p2 = some ((q, dt), save_data bpe bpt dt q) := by
  constructor
  · unfold create_stack_overflow_data
    rw [hd, hq]
  · unfold create_stack_overflow_data
    rcases hmiss with hm | hm
    · rcases h2 : p2.fs.dupes_test_tsv with _ | x <;>
        simp [h2, hm, hclean, hsplit]
    · rcases h2 : p2.fs.questions_tsv with _ | x <;>
        simp [h2, hm, hclean, hsplit]

/-- A concrete filesystem on which both cached files exist. -/
def fsHit : FS :=
  ⟨some [⟨1, 100, "qq", "", "qq"⟩], some [⟨2, 100, "dd", "", "dd"⟩], none, none⟩

/-- Witness for C8: a concrete cache hit returns the two cached tables and
leaves the filesystem unchanged, and a concrete cache miss returns the
pipeline results and writes the four files. -/
theorem create_stack_overflow_data_cache_witness :
    create_stack_overflow_data
      ⟨fsHit, sampleClean, fun l => l, fun _ _ _ => [], 0⟩ =
      some (([⟨1, 100, "qq", "", "qq"⟩], [⟨2, 100, "dd", "", "dd"⟩]), fsHit) ∧
    create_stack_overflow_data
      ⟨⟨none, none, none, none⟩, sampleClean, fun l => l, fun _ _ _ => [], 0⟩ =
      some (([⟨1, 100, "qq", "", "qq"⟩], [⟨2, 100, "dd", "", "dd"⟩]),
        save_data [] [] [⟨2, 100, "dd", "", "dd"⟩] [⟨1, 100, "qq", "", "qq"⟩]) :=
  create_stack_overflow_data_cache
    ⟨fsHit, sampleClean, fun l => l, fun _ _ _ => [], 0⟩
    ⟨⟨none, none, none, none⟩, sampleClean, fun l => l, fun _ _ _ => [], 0⟩
    [⟨1, 100, "qq", "", "qq"⟩] [⟨2, 100, "dd", "", "dd"⟩]
    [⟨2, 100, "dd", "", "dd"⟩] [⟨1, 100, "qq", "", "qq"⟩] "AnswerId"
    [] [] [⟨2, 100, "dd", "", "dd"⟩]
    rfl rfl (Or.inl rfl) (by decide) (by decide)

end StackOverflowData
